import Mathlib

/-!
Verification development for the AI motor-monitoring system.

The Python source is shallowly embedded over ℚ: machine floats become exact
rationals, Python dictionaries with nullable entries become structures of
`Option` fields, fallible code returns `Except`, and the two code variants
(the monolithic `main.py` and the modular `src/ai` / `src/hardware` files)
are modelled separately wherever they differ.
-/

instance {ε α : Type} [DecidableEq ε] [DecidableEq α] : DecidableEq (Except ε α) :=
  fun a b =>
    match a, b with
    | .ok x, .ok y => if h : x = y then .isTrue (by rw [h]) else .isFalse (by simp [h])
    | .error x, .error y => if h : x = y then .isTrue (by rw [h]) else .isFalse (by simp [h])
    | .ok _, .error _ => .isFalse (by simp)
    | .error _, .ok _ => .isFalse (by simp)

namespace MotorMonitor

/-! ## JSON-like scalar values and Python coercion helpers

Inbound push payload values are either strings or numbers.  `truthy` mirrors
Python truthiness on these scalars; `eqStr` mirrors Python `==` against a
string literal (a number never equals a string in Python).
-/

inductive JVal where
  | jstr (s : String)
  | jnum (q : ℚ)
  deriving DecidableEq, Repr

def JVal.truthy : JVal → Bool
  | .jstr s => s != ""
  | .jnum q => q != 0

def JVal.eqStr : JVal → String → Bool
  | .jstr s, t => s == t
  | .jnum _, _ => false

/-! ### Python `float(str)` parsing

Accepts an optionally signed decimal mantissa with optional fraction and
optional exponent, after stripping surrounding whitespace — the forms the
device payloads use.  (`inf` / `nan` are not representable in ℚ and digit
underscores are not modelled; neither occurs in this system's payloads.)
Failure (Python `ValueError`) is `none`.
-/

def digitVal (c : Char) : ℕ := c.toNat - 48

def digitsVal (cs : List Char) : ℕ := cs.foldl (fun n c => 10 * n + digitVal c) 0

def isDigits (cs : List Char) : Bool := !cs.isEmpty && cs.all Char.isDigit

def splitFirstAt (p : Char → Bool) : List Char → Option (List Char × List Char)
  | [] => none
  | c :: cs =>
    if p c then some ([], cs)
    else match splitFirstAt p cs with
      | some (a, b) => some (c :: a, b)
      | none => none

def parseMantissa (cs : List Char) : Option ℚ :=
  match splitFirstAt (fun c => c = '.') cs with
  | none => if isDigits cs then some (digitsVal cs) else none
  | some (a, b) =>
    if a.all Char.isDigit && b.all Char.isDigit && !(a.isEmpty && b.isEmpty) then
      some ((digitsVal a : ℚ) + (digitsVal b : ℚ) / (10 : ℚ) ^ b.length)
    else none

def parseSigned (f : List Char → Option ℚ) : List Char → Option ℚ
  | '+' :: cs => f cs
  | '-' :: cs => (f cs).map (fun q => -q)
  | cs => f cs

def parseExponent : List Char → Option ℤ
  | '+' :: ds => if isDigits ds then some (digitsVal ds : ℤ) else none
  | '-' :: ds => if isDigits ds then some (-(digitsVal ds : ℤ)) else none
  | ds => if isDigits ds then some (digitsVal ds : ℤ) else none

/-- Strip leading and trailing whitespace, as Python `float` does. -/
def trimChars (cs : List Char) : List Char :=
  ((cs.dropWhile Char.isWhitespace).reverse.dropWhile Char.isWhitespace).reverse

def pyParseFloat (s : String) : Option ℚ :=
  let cs := trimChars s.data
  match splitFirstAt (fun c => c = 'e' || c = 'E') cs with
  | none => parseSigned parseMantissa cs
  | some (m, e) =>
    match parseSigned parseMantissa m, parseExponent e with
    | some q, some z => some (q * (10 : ℚ) ^ z)
    | _, _ => none

/-- Python `float(x)` on a payload scalar; `none` models a raised error. -/
def pyFloat : JVal → Option ℚ
  | .jnum q => some q
  | .jstr s => pyParseFloat s

/-! ### Python `round(x, 1)`

Python rounds to the closest multiple of `1/10`, ties to the even choice.
-/

def pyRoundHalfEven (q : ℚ) : ℤ :=
  let f := ⌊q⌋
  let r := q - (f : ℚ)
  if r < 1/2 then f
  else if 1/2 < r then f + 1
  else if f % 2 = 0 then f else f + 1

def round1 (q : ℚ) : ℚ := (pyRoundHalfEven (q * 10) : ℚ) / 10

/-! ## Unit Converter — `PLCManager.convert_voltage` / `convert_temperature`

Identical in `src/hardware/plc_manager.py` and `src/main.py`
(`FX5UPLCManager`).
-/

def convert_voltage (raw : ℤ) : ℚ :=
  if raw ≤ 0 then 0
  else round1 (((raw : ℚ) / 4095) * 30)

def convert_temperature (raw : ℤ) : ℚ :=
  if raw ≤ 0 then 0
  else round1 ((0.05175 : ℚ) * (raw : ℚ))

/-! ## Reading Parser

The inbound push payload is a flat mapping `VAL1`..`VAL12`; a missing key is
`none`.  Flask's `request.get_json()` returning `None` and an empty JSON
object are both falsy in the route's `if not data` check, so both are
modelled by the all-absent payload.
-/

structure Payload where
  VAL1 : Option JVal := none
  VAL2 : Option JVal := none
  VAL3 : Option JVal := none
  VAL4 : Option JVal := none
  VAL5 : Option JVal := none
  VAL6 : Option JVal := none
  VAL7 : Option JVal := none
  VAL8 : Option JVal := none
  VAL9 : Option JVal := none
  VAL10 : Option JVal := none
  VAL11 : Option JVal := none
  VAL12 : Option JVal := none
  deriving DecidableEq, Repr

def Payload.isEmpty (p : Payload) : Bool :=
  p.VAL1.isNone && p.VAL2.isNone && p.VAL3.isNone && p.VAL4.isNone &&
  p.VAL5.isNone && p.VAL6.isNone && p.VAL7.isNone && p.VAL8.isNone &&
  p.VAL9.isNone && p.VAL10.isNone && p.VAL11.isNone && p.VAL12.isNone

/-- The produced patch of the shared snapshot.  Numeric fields are nullable;
relay/status fields keep the raw payload scalar (defaulted when absent). -/
structure EspPatch where
  esp_current : Option ℚ
  esp_voltage : Option ℚ
  esp_rpm : Option ℚ
  env_temp_c : Option ℚ
  env_humidity : Option ℚ
  env_temp_f : Option ℚ
  heat_index_c : Option ℚ
  heat_index_f : Option ℚ
  relay1_status : JVal
  relay2_status : JVal
  relay3_status : JVal
  combined_status : JVal
  esp_connected : Bool
  deriving DecidableEq, Repr

/-- `ESPHandler._safe_float` (src/hardware/esp_handler.py): `None`, the empty
string and the string `'0'` map to `None`; any other value is converted with
`float(...)` and a conversion error degrades to `None`.  Note that a numeric
`0` is not equal to the string `'0'` in Python, so it converts to `0.0`. -/
def safe_float (v : Option JVal) : Option ℚ :=
  match v with
  | none => none
  | some w => if w.eqStr "" || w.eqStr "0" then none else pyFloat w

/-- `ESPHandler.process_esp_data` (src/hardware/esp_handler.py), restricted to
the parsing it performs: an empty payload is rejected; otherwise every numeric
field goes through `_safe_float` and never aborts the patch. -/
def process_esp_data (p : Payload) : Except String EspPatch :=
  if p.isEmpty then .error "No data received"
  else .ok {
    esp_current := safe_float p.VAL1
    esp_voltage := safe_float p.VAL2
    esp_rpm := safe_float p.VAL3
    env_temp_c := safe_float p.VAL4
    env_humidity := safe_float p.VAL5
    env_temp_f := safe_float p.VAL6
    heat_index_c := safe_float p.VAL7
    heat_index_f := safe_float p.VAL8
    relay1_status := p.VAL9.getD (JVal.jstr "OFF")
    relay2_status := p.VAL10.getD (JVal.jstr "OFF")
    relay3_status := p.VAL11.getD (JVal.jstr "OFF")
    combined_status := p.VAL12.getD (JVal.jstr "NOR")
    esp_connected := true }

/-- A field of `receive_esp_data` in `src/main.py` for `VAL1`..`VAL3`:
`float(data.get(k, 0)) if data.get(k) and data.get(k) != '0' else None`.
The `float` call sits inside the route's single `try`, so a conversion
error aborts the whole request (`.error`). -/
def mainStrictField (v : Option JVal) : Except Unit (Option ℚ) :=
  match v with
  | none => .ok none
  | some w =>
    if w.truthy && !(w.eqStr "0") then
      match pyFloat w with
      | some q => .ok (some q)
      | none => .error ()
    else .ok none

/-- A field of `receive_esp_data` in `src/main.py` for `VAL4`..`VAL8`:
`float(data.get(k, 0)) if data.get(k) else None` — no `!= '0'` guard. -/
def mainLooseField (v : Option JVal) : Except Unit (Option ℚ) :=
  match v with
  | none => .ok none
  | some w =>
    if w.truthy then
      match pyFloat w with
      | some q => .ok (some q)
      | none => .error ()
    else .ok none

/-- `receive_esp_data` (src/main.py), restricted to the parsing it performs.
A raised `ValueError` anywhere yields `.error` (the route's 500 response). -/
def receive_esp_data (p : Payload) : Except Unit EspPatch := do
  if p.isEmpty then throw ()
  let c ← mainStrictField p.VAL1
  let v ← mainStrictField p.VAL2
  let r ← mainStrictField p.VAL3
  let tc ← mainLooseField p.VAL4
  let hu ← mainLooseField p.VAL5
  let tf ← mainLooseField p.VAL6
  let hic ← mainLooseField p.VAL7
  let hif ← mainLooseField p.VAL8
  return {
    esp_current := c
    esp_voltage := v
    esp_rpm := r
    env_temp_c := tc
    env_humidity := hu
    env_temp_f := tf
    heat_index_c := hic
    heat_index_f := hif
    relay1_status := p.VAL9.getD (JVal.jstr "OFF")
    relay2_status := p.VAL10.getD (JVal.jstr "OFF")
    relay3_status := p.VAL11.getD (JVal.jstr "OFF")
    combined_status := p.VAL12.getD (JVal.jstr "NOR")
    esp_connected := true }

/-! ## Configuration (`SystemConfig` in `src/main.py`, `Config` in
`src/config.py` — the thresholds used by the health scorer are identical). -/

namespace SystemConfig

def ESP_TIMEOUT : ℚ := 30
def PLC_TIMEOUT : ℚ := 60
def OPTIMAL_MOTOR_TEMP : ℚ := 40
def OPTIMAL_VOLTAGE : ℚ := 24
def OPTIMAL_CURRENT : ℚ := 6.25
def OPTIMAL_RPM : ℚ := 2750
def MOTOR_TEMP_GOOD : ℚ := 40
def MOTOR_TEMP_WARNING : ℚ := 50
def MOTOR_TEMP_CRITICAL : ℚ := 60
def VOLTAGE_MIN_CRITICAL : ℚ := 20
def VOLTAGE_MIN_WARNING : ℚ := 22
def VOLTAGE_MAX_WARNING : ℚ := 26
def VOLTAGE_MAX_CRITICAL : ℚ := 28
def CURRENT_MIN_WARNING : ℚ := 4
def CURRENT_MAX_WARNING : ℚ := 9
def CURRENT_MAX_CRITICAL : ℚ := 12
def RPM_MIN_CRITICAL : ℚ := 2400
def RPM_MIN_WARNING : ℚ := 2600
def RPM_MAX_WARNING : ℚ := 2900
def RPM_MAX_CRITICAL : ℚ := 3100
def DHT_TEMP_MAX_WARNING : ℚ := 30
def DHT_TEMP_MAX_CRITICAL : ℚ := 35
def DHT_HUMIDITY_MIN_WARNING : ℚ := 30
def DHT_HUMIDITY_MAX_WARNING : ℚ := 70
def DHT_HUMIDITY_MAX_CRITICAL : ℚ := 80

end SystemConfig

/-! ## Health Scorer

`HealthAnalyzer` (src/ai/health_analyzer.py) and `MotorHealthAnalyzer`
(src/main.py) are line-for-line identical except for the mechanical
cross-check, where only the `src/ai` variant guards the division with
`expected_current > 0`; both variants of that function are modelled.

Issue strings are modelled as an inductive type, one constructor per
f-string, carrying the interpolated numeric value.
-/

structure HealthData where
  esp_current : Option ℚ := none
  esp_voltage : Option ℚ := none
  esp_rpm : Option ℚ := none
  env_temp_c : Option ℚ := none
  env_humidity : Option ℚ := none
  plc_motor_temp : Option ℚ := none
  plc_motor_voltage : Option ℚ := none
  deriving DecidableEq, Repr

/-- Python `a or b` on nullable numbers: `a` is returned when truthy
(non-null and non-zero), otherwise `b` — even when `b` is null or zero. -/
def pyOrOpt (a b : Option ℚ) : Option ℚ :=
  match a with
  | some x => if x = 0 then b else some x
  | none => b

inductive Issue where
  | noElectricalData
  | criticalUndervoltage (v : ℚ)
  | lowVoltage (v : ℚ)
  | criticalOvervoltage (v : ℚ)
  | highVoltage (v : ℚ)
  | motorUnderloaded (c : ℚ)
  | criticalOvercurrent (c : ℚ)
  | motorOverloaded (c : ℚ)
  | noThermalData
  | criticalMotorTemp (t : ℚ)
  | highMotorTemp (t : ℚ)
  | elevatedMotorTemp (t : ℚ)
  | criticalAmbientTemp (t : ℚ)
  | highAmbientTemp (t : ℚ)
  | criticalHumidity (h : ℚ)
  | highHumidity (h : ℚ)
  | lowHumidity (h : ℚ)
  | noRpmData
  | criticalLowRpm (r : ℚ)
  | lowRpm (r : ℚ)
  | criticalHighRpm (r : ℚ)
  | highRpm (r : ℚ)
  | currentRpmImbalance
  | insufficientData
  | limitedHistoricalData
  | risingTemperatureTrend (s : ℚ)
  | currentInstability (s : ℚ)
  | healthDegradation (s : ℚ)
  deriving DecidableEq, Repr

/-- `max(0.0, min(100.0, score))`, the final clamp of every sub-score. -/
def clampScore (q : ℚ) : ℚ := max 0 (min 100 q)

/-- The voltage `elif` chain of `calculate_electrical_health`:
(deduction, issues). -/
def voltagePenalty (voltage : Option ℚ) : ℚ × List Issue :=
  match voltage with
  | none => (0, [])
  | some v =>
    if v < SystemConfig.VOLTAGE_MIN_CRITICAL then (40, [.criticalUndervoltage v])
    else if v < SystemConfig.VOLTAGE_MIN_WARNING then (20, [.lowVoltage v])
    else if v > SystemConfig.VOLTAGE_MAX_CRITICAL then (40, [.criticalOvervoltage v])
    else if v > SystemConfig.VOLTAGE_MAX_WARNING then (20, [.highVoltage v])
    else (0, [])

/-- The current `elif` chain of `calculate_electrical_health`. -/
def currentPenalty (current : Option ℚ) : ℚ × List Issue :=
  match current with
  | none => (0, [])
  | some c =>
    if c < SystemConfig.CURRENT_MIN_WARNING then (30, [.motorUnderloaded c])
    else if c > SystemConfig.CURRENT_MAX_CRITICAL then (50, [.criticalOvercurrent c])
    else if c > SystemConfig.CURRENT_MAX_WARNING then (25, [.motorOverloaded c])
    else (0, [])

def calculate_electrical_health (d : HealthData) : ℚ × List Issue :=
  let voltage := pyOrOpt d.esp_voltage d.plc_motor_voltage
  let current := d.esp_current
  if voltage = none ∧ current = none then (0, [.noElectricalData])
  else
    let vp := voltagePenalty voltage
    let cp := currentPenalty current
    (clampScore (100 - vp.1 - cp.1), vp.2 ++ cp.2)

/-- The motor-temperature `elif` chain of `calculate_thermal_health`. -/
def motorTempPenalty (motor_temp : Option ℚ) : ℚ × List Issue :=
  match motor_temp with
  | none => (0, [])
  | some t =>
    if t > SystemConfig.MOTOR_TEMP_CRITICAL then (50, [.criticalMotorTemp t])
    else if t > SystemConfig.MOTOR_TEMP_WARNING then (30, [.highMotorTemp t])
    else if t > SystemConfig.MOTOR_TEMP_GOOD then (15, [.elevatedMotorTemp t])
    else (0, [])

/-- The ambient-temperature `elif` chain of `calculate_thermal_health`. -/
def envTempPenalty (env_temp : Option ℚ) : ℚ × List Issue :=
  match env_temp with
  | none => (0, [])
  | some t =>
    if t > SystemConfig.DHT_TEMP_MAX_CRITICAL then (25, [.criticalAmbientTemp t])
    else if t > SystemConfig.DHT_TEMP_MAX_WARNING then (15, [.highAmbientTemp t])
    else (0, [])

/-- The humidity `elif` chain of `calculate_thermal_health`. -/
def humidityPenalty (humidity : Option ℚ) : ℚ × List Issue :=
  match humidity with
  | none => (0, [])
  | some h =>
    if h > SystemConfig.DHT_HUMIDITY_MAX_CRITICAL then (20, [.criticalHumidity h])
    else if h > SystemConfig.DHT_HUMIDITY_MAX_WARNING then (10, [.highHumidity h])
    else if h < SystemConfig.DHT_HUMIDITY_MIN_WARNING then (5, [.lowHumidity h])
    else (0, [])

def calculate_thermal_health (d : HealthData) : ℚ × List Issue :=
  if d.plc_motor_temp = none ∧ d.env_temp_c = none then (0, [.noThermalData])
  else
    let mp := motorTempPenalty d.plc_motor_temp
    let ep := envTempPenalty d.env_temp_c
    let hp := humidityPenalty d.env_humidity
    (clampScore (100 - mp.1 - ep.1 - hp.1), mp.2 ++ ep.2 ++ hp.2)

/-- The rpm `elif` chain of `calculate_mechanical_health`. -/
def rpmPenalty (r : ℚ) : ℚ × List Issue :=
  if r < SystemConfig.RPM_MIN_CRITICAL then (50, [.criticalLowRpm r])
  else if r < SystemConfig.RPM_MIN_WARNING then (30, [.lowRpm r])
  else if r > SystemConfig.RPM_MAX_CRITICAL then (50, [.criticalHighRpm r])
  else if r > SystemConfig.RPM_MAX_WARNING then (30, [.highRpm r])
  else (0, [])

def expected_current (rpm : ℚ) : ℚ :=
  (rpm / SystemConfig.OPTIMAL_RPM) * SystemConfig.OPTIMAL_CURRENT

/-- The load-balance cross-check of `MotorHealthAnalyzer` (src/main.py):
the division by `expected_current` is not guarded. -/
def imbalancePenaltyMain (current : Option ℚ) (rpm : ℚ) : ℚ × List Issue :=
  match current with
  | none => (0, [])
  | some c =>
    if rpm > 0 then
      let ec := expected_current rpm
      if |c - ec| / ec > 0.5 then (20, [.currentRpmImbalance]) else (0, [])
    else (0, [])

/-- The load-balance cross-check of `HealthAnalyzer` (src/ai), with the
extra `expected_current > 0` guard around the division. -/
def imbalancePenaltyAi (current : Option ℚ) (rpm : ℚ) : ℚ × List Issue :=
  match current with
  | none => (0, [])
  | some c =>
    if rpm > 0 then
      let ec := expected_current rpm
      if ec > 0 then
        if |c - ec| / ec > 0.5 then (20, [.currentRpmImbalance]) else (0, [])
      else (0, [])
    else (0, [])

/-- `MotorHealthAnalyzer.calculate_mechanical_health` (src/main.py). -/
def calculate_mechanical_health (d : HealthData) : ℚ × List Issue :=
  match d.esp_rpm with
  | none => (0, [.noRpmData])
  | some rpm =>
    let rp := rpmPenalty rpm
    let ip := imbalancePenaltyMain d.esp_current rpm
    (clampScore (100 - rp.1 - ip.1), rp.2 ++ ip.2)

/-- `HealthAnalyzer.calculate_mechanical_health` (src/ai/health_analyzer.py). -/
def calculate_mechanical_health_ai (d : HealthData) : ℚ × List Issue :=
  match d.esp_rpm with
  | none => (0, [.noRpmData])
  | some rpm =>
    let rp := rpmPenalty rpm
    let ip := imbalancePenaltyAi d.esp_current rpm
    (clampScore (100 - rp.1 - ip.1), rp.2 ++ ip.2)

/-! ### Predictive health

The history window is the DataFrame returned by `get_recent_data`: a list of
rows plus one presence flag per column consulted (`'col' in recent_data.columns`).
`np.polyfit(range(n), y, 1)[0]` is the exact least-squares slope over sample
index `0..n-1`.
-/

structure HistRow where
  plc_motor_temp : Option ℚ := none
  esp_current : Option ℚ := none
  overall_health_score : Option ℚ := none
  deriving DecidableEq, Repr

structure RecentData where
  has_plc_motor_temp : Bool := true
  has_esp_current : Bool := true
  has_overall_health_score : Bool := true
  rows : List HistRow := []
  deriving DecidableEq, Repr

/-- `series.tail(n)`: the last `n` elements. -/
def lastN (n : ℕ) (l : List ℚ) : List ℚ := l.drop (l.length - n)

/-- Least-squares slope of `ys` against `x = 0, 1, ..., n-1`. -/
def polyfitSlope (ys : List ℚ) : ℚ :=
  let n : ℚ := ys.length
  let xs : List ℚ := (List.range ys.length).map (fun i => (i : ℚ))
  let sx := xs.sum
  let sy := ys.sum
  let sxy := (List.zipWith (fun x y => x * y) xs ys).sum
  let sxx := (xs.map (fun x => x * x)).sum
  (n * sxy - sx * sy) / (n * sxx - sx * sx)

/-- Temperature-trend block of `calculate_predictive_health`. -/
def tempTrendPenalty (r : RecentData) : ℚ × List Issue :=
  if r.has_plc_motor_temp then
    let t := lastN 10 (r.rows.filterMap (fun row => row.plc_motor_temp))
    if t.length ≥ 5 then
      let s := polyfitSlope t
      if s > 1 then (30, [.risingTemperatureTrend s]) else (0, [])
    else (0, [])
  else (0, [])

/-- Current-stability block of `calculate_predictive_health`. -/
def currentTrendPenalty (r : RecentData) : ℚ × List Issue :=
  if r.has_esp_current then
    let t := lastN 10 (r.rows.filterMap (fun row => row.esp_current))
    if t.length ≥ 5 then
      let s := polyfitSlope t
      if |s| > 0.5 then (25, [.currentInstability s]) else (0, [])
    else (0, [])
  else (0, [])

/-- Health-degradation block of `calculate_predictive_health`. -/
def healthTrendPenalty (r : RecentData) : ℚ × List Issue :=
  if r.has_overall_health_score then
    let t := lastN 20 (r.rows.filterMap (fun row => row.overall_health_score))
    if t.length ≥ 10 then
      let s := polyfitSlope t
      if s < -1 then (35, [.healthDegradation s]) else (0, [])
    else (0, [])
  else (0, [])

/-- `calculate_predictive_health` (identical in both variants).  The
`except` fallback of the source is unreachable in this exact-arithmetic
model, so it is not represented. -/
def calculate_predictive_health (r : RecentData) : ℚ × List Issue :=
  if r.rows.length < 5 then (50, [.insufficientData])
  else
    let tp := tempTrendPenalty r
    let cp := currentTrendPenalty r
    let hp := healthTrendPenalty r
    (clampScore (100 - tp.1 - cp.1 - hp.1), tp.2 ++ cp.2 ++ hp.2)

/-- `calculate_efficiency_score` (identical in both variants).  A missing
key's default `0` and a stored `None` are both falsy in the `all([...])`
check and are conflated by the `Option.getD 0` here. -/
def calculate_efficiency_score (d : HealthData) : ℚ :=
  let voltage := (pyOrOpt d.esp_voltage d.plc_motor_voltage).getD 0
  let current := d.esp_current.getD 0
  let rpm := d.esp_rpm.getD 0
  if voltage = 0 ∨ current = 0 ∨ rpm = 0 then 0
  else
    let rpm_efficiency := min 100 ((rpm / SystemConfig.OPTIMAL_RPM) * 100)
    let actual_power := voltage * current / 1000
    let theoretical_power := SystemConfig.OPTIMAL_VOLTAGE * SystemConfig.OPTIMAL_CURRENT / 1000
    let power_efficiency :=
      if actual_power > 0 then min 100 ((theoretical_power / actual_power) * 100) else 0
    clampScore ((rpm_efficiency + power_efficiency) / 2)

structure HealthResult where
  overall_health_score : ℚ
  electrical_health : ℚ
  thermal_health : ℚ
  mechanical_health : ℚ
  predictive_health : ℚ
  efficiency_score : ℚ
  status : String
  status_class : String
  electrical_issues : List Issue
  thermal_issues : List Issue
  mechanical_issues : List Issue
  predictive_issues : List Issue
  deriving DecidableEq, Repr

/-- The predictive component as used by `calculate_comprehensive_health`:
`recent_data` of `None` or length 0 short-circuits to the neutral default. -/
def predictiveComponent (recent : Option RecentData) : ℚ × List Issue :=
  match recent with
  | some r => if r.rows.length > 0 then calculate_predictive_health r
              else (50, [.limitedHistoricalData])
  | none => (50, [.limitedHistoricalData])

/-- The weighted overall score before the 1-decimal display rounding. -/
def overallScore (d : HealthData) (recent : Option RecentData) : ℚ :=
  (calculate_electrical_health d).1 * 0.30 +
  (calculate_thermal_health d).1 * 0.35 +
  (calculate_mechanical_health d).1 * 0.25 +
  (predictiveComponent recent).1 * 0.10

/-- `calculate_comprehensive_health` (identical in both variants; the
returned scores are rounded to one decimal exactly as in the source, while
the status bucket is chosen from the unrounded overall score). -/
def calculate_comprehensive_health (d : HealthData) (recent : Option RecentData) :
    HealthResult :=
  let e := calculate_electrical_health d
  let t := calculate_thermal_health d
  let m := calculate_mechanical_health d
  let p := predictiveComponent recent
  let overall := e.1 * 0.30 + t.1 * 0.35 + m.1 * 0.25 + p.1 * 0.10
  let eff := calculate_efficiency_score d
  let st : String × String :=
    if overall ≥ 90 then ("Excellent", "success")
    else if overall ≥ 75 then ("Good", "info")
    else if overall ≥ 60 then ("Warning", "warning")
    else ("Critical", "danger")
  { overall_health_score := round1 overall
    electrical_health := round1 e.1
    thermal_health := round1 t.1
    mechanical_health := round1 m.1
    predictive_health := round1 p.1
    efficiency_score := round1 eff
    status := st.1
    status_class := st.2
    electrical_issues := e.2
    thermal_issues := t.2
    mechanical_issues := m.2
    predictive_issues := p.2 }

/-! ## Recommendation Engine (`generate_recommendations`, identical in both
variants).  Descriptions that interpolate the score are modelled by their
constant text. -/

structure Recommendation where
  rec_type : String
  category : String
  severity : String
  priority : String
  title : String
  description : String
  action : String
  confidence : ℚ
  deriving DecidableEq, Repr

structure ConnectionStatus where
  esp_connected : Bool := false
  plc_connected : Bool := false
  deriving DecidableEq, Repr

def espDisconnectedRec : Recommendation :=
  { rec_type := "Connection Alert", category := "System", severity := "HIGH",
    priority := "HIGH", title := "ESP/Arduino Disconnected",
    description := "ESP sensor module not responding",
    action := "Check ESP power and network connectivity", confidence := 1 }

def plcDisconnectedRec : Recommendation :=
  { rec_type := "Connection Alert", category := "System", severity := "HIGH",
    priority := "HIGH", title := "FX5U PLC Disconnected",
    description := "FX5U PLC not responding on port 5007",
    action := "Check FX5U network and MC protocol settings", confidence := 1 }

def criticalHealthRec : Recommendation :=
  { rec_type := "Critical Alert", category := "Health", severity := "CRITICAL",
    priority := "CRITICAL", title := "Motor Health Critical",
    description := "Overall health - Immediate attention required",
    action := "Stop motor and perform immediate inspection", confidence := 0.95 }

def electricalWarningRec : Recommendation :=
  { rec_type := "Electrical Warning", category := "Electrical", severity := "MEDIUM",
    priority := "MEDIUM", title := "Electrical System Issues",
    description := "Voltage or current outside optimal range",
    action := "Check 24V motor connections and measure with multimeter",
    confidence := 0.8 }

def thermalWarningRec : Recommendation :=
  { rec_type := "Temperature Warning", category := "Thermal", severity := "MEDIUM",
    priority := "MEDIUM", title := "Thermal Issues",
    description := "Temperature above optimal levels",
    action := "Improve ventilation and check cooling system", confidence := 0.85 }

def mechanicalWarningRec : Recommendation :=
  { rec_type := "Mechanical Warning", category := "Mechanical", severity := "MEDIUM",
    priority := "MEDIUM", title := "Mechanical Issues",
    description := "RPM or load outside optimal range",
    action := "Inspect bearings and check coupling alignment", confidence := 0.8 }

/-- The rule list, appended in source order before sorting. -/
def buildRecommendations (h : HealthResult) (c : ConnectionStatus) :
    List Recommendation :=
  (if c.esp_connected = false then [espDisconnectedRec] else []) ++
  (if c.plc_connected = false then [plcDisconnectedRec] else []) ++
  (if h.overall_health_score < 60 then [criticalHealthRec] else []) ++
  (if h.electrical_health < 70 then [electricalWarningRec] else []) ++
  (if h.thermal_health < 70 then [thermalWarningRec] else []) ++
  (if h.mechanical_health < 70 then [mechanicalWarningRec] else [])

/-- `priority_order = {'CRITICAL': 4, 'HIGH': 3, 'MEDIUM': 2, 'LOW': 1}`,
defaulting to 0. -/
def priority_order (p : String) : ℕ :=
  if p = "CRITICAL" then 4
  else if p = "HIGH" then 3
  else if p = "MEDIUM" then 2
  else if p = "LOW" then 1
  else 0

/-- One step of a stable descending insertion sort: `x` is placed before the
first element whose rank does not exceed its own, so that elements of equal
rank keep their original relative order (Python `list.sort` is stable and
`reverse=True` preserves stability). -/
def insertByPriorityDesc (x : Recommendation) :
    List Recommendation → List Recommendation
  | [] => [x]
  | y :: ys =>
    if priority_order y.priority ≤ priority_order x.priority then x :: y :: ys
    else y :: insertByPriorityDesc x ys

/-- `recommendations.sort(key=priority_order, reverse=True)` as a stable
descending sort. -/
def sortByPriorityDesc (l : List Recommendation) : List Recommendation :=
  l.foldr insertByPriorityDesc []

/-- `generate_recommendations`: rule list, stable descending sort, `[:10]`. -/
def generate_recommendations (h : HealthResult) (c : ConnectionStatus) :
    List Recommendation :=
  (sortByPriorityDesc (buildRecommendations h c)).take 10

/-! ## Liveness Tracker — `connection_monitor` (src/main.py)

`latest_data` is a dict whose keys come and go: each entry is
`Option (Option v)` — outer `none` when the key is absent, inner `none` for a
stored Python `None`.  The ESP sweep clears a key only if it is present
(`if key in latest_data`), while the PLC sweep assigns its keys
unconditionally.  Timestamps are rational seconds; `system_status` last-seen
entries are `None` or an isoformat string, whose truthiness the sweep tests.
-/

structure LatestData where
  esp_current : Option (Option ℚ) := none
  esp_voltage : Option (Option ℚ) := none
  esp_rpm : Option (Option ℚ) := none
  env_temp_c : Option (Option ℚ) := none
  env_humidity : Option (Option ℚ) := none
  env_temp_f : Option (Option ℚ) := none
  heat_index_c : Option (Option ℚ) := none
  heat_index_f : Option (Option ℚ) := none
  relay1_status : Option (Option JVal) := none
  relay2_status : Option (Option JVal) := none
  relay3_status : Option (Option JVal) := none
  combined_status : Option (Option JVal) := none
  plc_motor_temp : Option (Option ℚ) := none
  plc_motor_voltage : Option (Option ℚ) := none
  plc_connected : Option Bool := none
  deriving DecidableEq, Repr

/-- `dict.get(key)`: absent key and stored `None` both read as null. -/
def readKey (x : Option (Option α)) : Option α := x.join

/-- `if key in latest_data: latest_data[key] = None`. -/
def clearKey (x : Option (Option α)) : Option (Option α) :=
  x.map (fun _ => none)

def clearEspKeys (l : LatestData) : LatestData :=
  { l with
    esp_current := clearKey l.esp_current
    esp_voltage := clearKey l.esp_voltage
    esp_rpm := clearKey l.esp_rpm
    env_temp_c := clearKey l.env_temp_c
    env_humidity := clearKey l.env_humidity
    env_temp_f := clearKey l.env_temp_f
    heat_index_c := clearKey l.heat_index_c
    heat_index_f := clearKey l.heat_index_f
    relay1_status := clearKey l.relay1_status
    relay2_status := clearKey l.relay2_status
    relay3_status := clearKey l.relay3_status
    combined_status := clearKey l.combined_status }

structure SystemStatus where
  esp_connected : Bool := false
  plc_connected : Bool := false
  esp_last_seen : Option ℚ := none
  plc_last_seen : Option ℚ := none
  deriving DecidableEq, Repr

structure MonitorState where
  status : SystemStatus
  latest : LatestData
  deriving DecidableEq, Repr

inductive MonitorEvent where
  | espConnectionLost (timeout : ℚ)
  | plcConnectionLost (timeout : ℚ)
  | statusUpdate
  deriving DecidableEq, Repr

/-- The ESP half of one `connection_monitor` iteration. -/
def espSweep (now : ℚ) (s : MonitorState) : MonitorState × List MonitorEvent :=
  match s.status.esp_last_seen with
  | none => (s, [])
  | some t =>
    let elapsed := now - t
    if elapsed > SystemConfig.ESP_TIMEOUT then
      if s.status.esp_connected then
        ({ status := { s.status with esp_connected := false },
           latest := clearEspKeys s.latest },
         [.espConnectionLost elapsed])
      else (s, [])
    else (s, [])

/-- The PLC half of one `connection_monitor` iteration; its keys are
assigned unconditionally (they become present with a null value). -/
def plcSweep (now : ℚ) (s : MonitorState) : MonitorState × List MonitorEvent :=
  match s.status.plc_last_seen with
  | none => (s, [])
  | some t =>
    let elapsed := now - t
    if elapsed > SystemConfig.PLC_TIMEOUT then
      if s.status.plc_connected then
        ({ status := { s.status with plc_connected := false },
           latest := { s.latest with
             plc_motor_temp := some none
             plc_motor_voltage := some none
             plc_connected := some false } },
         [.plcConnectionLost elapsed])
      else (s, [])
    else (s, [])

/-- One full iteration of the `connection_monitor` loop body: ESP check,
PLC check, then the unconditional `status_update` emit. -/
def connection_monitor_sweep (now : ℚ) (s : MonitorState) :
    MonitorState × List MonitorEvent :=
  let r1 := espSweep now s
  let r2 := plcSweep now r1.1
  (r2.1, r1.2 ++ r2.2 ++ [.statusUpdate])

/-! ## Alert Deduplicator — the promotion loop of `data_analysis_task`
(src/main.py).  The persisted alert table is a list; the dedup query sees
alerts added earlier in the same cycle (the session autoflushes pending
rows before querying).  Timestamps are rational minutes. -/

structure Alert where
  alert_type : String
  category : String
  severity : String
  priority : String
  description : String
  prediction_confidence : ℚ
  recommended_action : String
  timestamp : ℚ
  acknowledged : Bool
  deriving DecidableEq, Repr

/-- `rec['severity'] in ['CRITICAL', 'HIGH'] and rec['confidence'] > 0.8`. -/
def promotable (r : Recommendation) : Bool :=
  (r.severity == "CRITICAL" || r.severity == "HIGH") &&
    decide ((0.8 : ℚ) < r.confidence)

/-- The dedup query: an unacknowledged alert of the same type created within
the trailing 30-minute window. -/
def matchesExisting (now : ℚ) (r : Recommendation) (a : Alert) : Bool :=
  a.alert_type == r.rec_type && a.acknowledged == false &&
    decide (now - 30 < a.timestamp)

def mkAlert (now : ℚ) (r : Recommendation) : Alert :=
  { alert_type := r.rec_type
    category := r.category
    severity := r.severity
    priority := r.priority
    description := r.description
    prediction_confidence := r.confidence
    recommended_action := r.action
    timestamp := now
    acknowledged := false }

/-- One iteration of the promotion loop over one recommendation: the state is
(persisted alerts, emitted `maintenance_alert` events). -/
def promoteStep (now : ℚ) (acc : List Alert × List Recommendation)
    (r : Recommendation) : List Alert × List Recommendation :=
  if promotable r then
    if acc.1.any (matchesExisting now r) then acc
    else (acc.1 ++ [mkAlert now r], acc.2 ++ [r])
  else acc

/-- The alert-promotion pass of one `data_analysis_task` cycle. -/
def save_critical_alerts (now : ℚ) (recs : List Recommendation)
    (db : List Alert) : List Alert × List Recommendation :=
  recs.foldl (promoteStep now) (db, [])

/-! ## Helper lemmas -/

lemma clampScore_nonneg (q : ℚ) : 0 ≤ clampScore q := le_max_left 0 _

lemma clampScore_le_100 (q : ℚ) : clampScore q ≤ 100 :=
  max_le (by norm_num) (min_le_left 100 q)

lemma pyRound_le {q : ℚ} {n : ℤ} (h : q ≤ (n : ℚ)) : pyRoundHalfEven q ≤ n := by
  have hfn : ⌊q⌋ ≤ n := by
    have := Int.floor_le_floor h
    rwa [Int.floor_intCast] at this
  unfold pyRoundHalfEven
  dsimp only
  split_ifs with h1 h2 h3
  · exact hfn
  · have hlt : (⌊q⌋ : ℚ) < (n : ℚ) := by linarith [h2]
    have : ⌊q⌋ < n := by exact_mod_cast hlt
    omega
  · exact hfn
  · have hge : (1 : ℚ) / 2 ≤ q - ⌊q⌋ := not_lt.mp h1
    have hlt : (⌊q⌋ : ℚ) < (n : ℚ) := by linarith
    have : ⌊q⌋ < n := by exact_mod_cast hlt
    omega

lemma pyRound_ge {q : ℚ} {n : ℤ} (h : (n : ℚ) ≤ q) : n ≤ pyRoundHalfEven q := by
  have hfn : n ≤ ⌊q⌋ := Int.le_floor.mpr h
  unfold pyRoundHalfEven
  dsimp only
  split_ifs <;> omega

lemma round1_nonneg {q : ℚ} (h : 0 ≤ q) : 0 ≤ round1 q := by
  have h10 : ((0 : ℤ) : ℚ) ≤ q * 10 := by push_cast; linarith
  have := pyRound_ge h10
  unfold round1
  have hcast : ((0 : ℤ) : ℚ) ≤ (pyRoundHalfEven (q * 10) : ℚ) := by exact_mod_cast this
  push_cast at hcast
  linarith

lemma round1_le_100 {q : ℚ} (h : q ≤ 100) : round1 q ≤ 100 := by
  have h10 : q * 10 ≤ ((1000 : ℤ) : ℚ) := by push_cast; linarith
  have := pyRound_le h10
  unfold round1
  have hcast : (pyRoundHalfEven (q * 10) : ℚ) ≤ ((1000 : ℤ) : ℚ) := by exact_mod_cast this
  push_cast at hcast
  linarith

lemma electrical_score_bounds (d : HealthData) :
    0 ≤ (calculate_electrical_health d).1 ∧ (calculate_electrical_health d).1 ≤ 100 := by
  unfold calculate_electrical_health
  dsimp only
  split_ifs <;> simp [clampScore_nonneg, clampScore_le_100]

lemma thermal_score_bounds (d : HealthData) :
    0 ≤ (calculate_thermal_health d).1 ∧ (calculate_thermal_health d).1 ≤ 100 := by
  unfold calculate_thermal_health
  dsimp only
  split_ifs <;> simp [clampScore_nonneg, clampScore_le_100]

lemma mechanical_score_bounds (d : HealthData) :
    0 ≤ (calculate_mechanical_health d).1 ∧ (calculate_mechanical_health d).1 ≤ 100 := by
  unfold calculate_mechanical_health
  rcases hr : d.esp_rpm with _ | rpm <;>
    simp [hr, clampScore_nonneg, clampScore_le_100]

lemma predictive_score_bounds (r : RecentData) :
    0 ≤ (calculate_predictive_health r).1 ∧ (calculate_predictive_health r).1 ≤ 100 := by
  unfold calculate_predictive_health
  dsimp only
  split_ifs <;> simp [clampScore_nonneg, clampScore_le_100] <;> norm_num

lemma predictiveComponent_bounds (recent : Option RecentData) :
    0 ≤ (predictiveComponent recent).1 ∧ (predictiveComponent recent).1 ≤ 100 := by
  unfold predictiveComponent
  rcases recent with _ | r
  · norm_num
  · dsimp only
    split_ifs
    · exact predictive_score_bounds r
    · norm_num

lemma efficiency_score_bounds (d : HealthData) :
    0 ≤ calculate_efficiency_score d ∧ calculate_efficiency_score d ≤ 100 := by
  unfold calculate_efficiency_score
  dsimp only
  split_ifs <;> simp [clampScore_nonneg, clampScore_le_100]

lemma voltagePenalty_spec (v : Option ℚ) :
    (voltagePenalty v).2.length ≤ 1 ∧
      ((voltagePenalty v).1 = 0 ↔ (voltagePenalty v).2 = []) := by
  rcases v with _ | v
  · simp [voltagePenalty]
  · unfold voltagePenalty
    dsimp only
    split_ifs <;> norm_num

lemma currentPenalty_spec (c : Option ℚ) :
    (currentPenalty c).2.length ≤ 1 ∧
      ((currentPenalty c).1 = 0 ↔ (currentPenalty c).2 = []) := by
  rcases c with _ | c
  · simp [currentPenalty]
  · unfold currentPenalty
    dsimp only
    split_ifs <;> norm_num

/-! ## Claim C9 — unit converter -/

/-- C9 (counterexample): the spec's concrete values `51.75` and `27.95` have
two decimals, but the converter rounds to one decimal, so
`convert_temperature 1000 ≠ 51.75` and `convert_temperature 540 ≠ 27.95`. -/
theorem C9_unit_converter_counterexample :
    convert_temperature 1000 ≠ 51.75 ∧ convert_temperature 540 ≠ 27.95 := by
  constructor <;> norm_num [convert_temperature, round1, pyRoundHalfEven]

/-- C9 (amended): for every raw register value `r ≤ 0` both converters return
`0.0`; on the concrete test inputs, `convert_voltage 4095 = 30.0`,
`convert_temperature 1000 = 51.8`, `convert_temperature 540 = 27.9`, and
`convert_voltage 996 = 7.3` — all rounded to one decimal as the code does. -/
theorem C9_unit_converter_amended :
    (∀ r : ℤ, r ≤ 0 → convert_voltage r = 0 ∧ convert_temperature r = 0) ∧
    convert_voltage 4095 = 30 ∧
    convert_temperature 1000 = 51.8 ∧
    convert_temperature 540 = 27.9 ∧
    convert_voltage 996 = 7.3 := by
  refine ⟨fun r hr => ⟨?_, ?_⟩, ?_, ?_, ?_, ?_⟩
  · simp [convert_voltage, hr]
  · simp [convert_temperature, hr]
  · norm_num [convert_voltage, round1, pyRoundHalfEven]
  · norm_num [convert_temperature, round1, pyRoundHalfEven]
  · norm_num [convert_temperature, round1, pyRoundHalfEven]
  · norm_num [convert_voltage, round1, pyRoundHalfEven]

/-- C9 (witness): the universally quantified part of the amended claim,
instantiated at the raw register value `-7`. -/
theorem C9_unit_converter_witness :
    (-7 : ℤ) ≤ 0 ∧ (convert_voltage (-7) = 0 ∧ convert_temperature (-7) = 0) :=
  ⟨by norm_num, C9_unit_converter_amended.1 (-7) (by norm_num)⟩

/-! ## Claim C4 — zero-sentinel rule of the Reading Parser -/

/-- C4 (counterexample): a literal value equal to zero does not always map to
absent — `_safe_float` converts a numeric `0` to `0.0` (only the string `'0'`
is a sentinel there), and the monolithic endpoint's environmental fields
convert the string `'0'` to `0.0`. -/
theorem C4_zero_sentinel_counterexample :
    safe_float (some (JVal.jnum 0)) = some 0 ∧
    mainLooseField (some (JVal.jstr "0")) = Except.ok (some 0) := by
  constructor
  · simp [safe_float, JVal.eqStr, pyFloat]
  · simp +decide [mainLooseField, JVal.truthy, pyFloat, pyParseFloat, trimChars,
      splitFirstAt, parseSigned, parseMantissa, isDigits, digitsVal, digitVal]

/-- C4 (amended): the sentinel rule as the code implements it.  The handler's
`_safe_float` maps a missing key, the empty string and the string `'0'` to
absent but converts a numeric `0` to `0.0`; the monolithic endpoint maps
missing, empty, numeric zero and the string `'0'` to absent for
current/voltage/rpm, while its environmental fields treat only missing, empty
and numeric zero as sentinels — the string `'0'` parses to `0.0`. -/
theorem C4_zero_sentinel_amended :
    safe_float none = none ∧
    safe_float (some (JVal.jstr "")) = none ∧
    safe_float (some (JVal.jstr "0")) = none ∧
    safe_float (some (JVal.jnum 0)) = some 0 ∧
    mainStrictField none = Except.ok none ∧
    mainStrictField (some (JVal.jstr "")) = Except.ok none ∧
    mainStrictField (some (JVal.jnum 0)) = Except.ok none ∧
    mainStrictField (some (JVal.jstr "0")) = Except.ok none ∧
    mainLooseField none = Except.ok none ∧
    mainLooseField (some (JVal.jstr "")) = Except.ok none ∧
    mainLooseField (some (JVal.jnum 0)) = Except.ok none ∧
    mainLooseField (some (JVal.jstr "0")) = Except.ok (some 0) := by
  refine ⟨rfl, ?_, ?_, ?_, rfl, ?_, ?_, ?_, rfl, ?_, ?_, ?_⟩ <;>
    simp +decide [safe_float, mainStrictField, mainLooseField, JVal.truthy, JVal.eqStr,
      pyFloat, pyParseFloat, trimChars, splitFirstAt, parseSigned, parseMantissa,
      isDigits, digitsVal, digitVal]

/-! ## Claim C5 — malformed payloads -/

/-- C5 (counterexample): in the monolithic endpoint a malformed numeric string
aborts the whole request — no patch is produced. -/
theorem C5_malformed_counterexample :
    receive_esp_data { VAL1 := some (JVal.jstr "abc") } = Except.error () := by
  simp +decide [receive_esp_data, Payload.isEmpty, mainStrictField, JVal.truthy,
    JVal.eqStr, pyFloat, pyParseFloat, trimChars, splitFirstAt, parseSigned,
    parseMantissa, isDigits, digitsVal, Bind.bind, Except.bind]

/-- C5 (amended): in the modular handler, parsing never fails — every
non-empty payload yields a patch with `connected = true`, unconvertible
fields degrade to absent while the rest of the patch survives, and only a
totally absent payload is rejected; in the monolithic endpoint, by contrast,
a malformed numeric string rejects the whole request. -/
theorem C5_malformed_amended :
    (∀ p : Payload, p.isEmpty = false →
        ∃ patch : EspPatch, process_esp_data p = .ok patch ∧ patch.esp_connected = true) ∧
    (∀ p : Payload, p.isEmpty = true → process_esp_data p = .error "No data received") ∧
    process_esp_data { VAL1 := some (JVal.jstr "abc"), VAL2 := some (JVal.jstr "12.5") } =
      .ok { esp_current := none, esp_voltage := some 12.5, esp_rpm := none,
            env_temp_c := none, env_humidity := none, env_temp_f := none,
            heat_index_c := none, heat_index_f := none,
            relay1_status := JVal.jstr "OFF", relay2_status := JVal.jstr "OFF",
            relay3_status := JVal.jstr "OFF", combined_status := JVal.jstr "NOR",
            esp_connected := true } ∧
    receive_esp_data { VAL1 := some (JVal.jstr "abc"), VAL2 := some (JVal.jstr "12.5") } =
      Except.error () := by
  refine ⟨fun p hp => ?_, fun p hp => ?_, ?_, ?_⟩
  · unfold process_esp_data
    rw [hp]
    exact ⟨_, rfl, rfl⟩
  · unfold process_esp_data
    rw [hp]
    rfl
  · simp +decide [process_esp_data, Payload.isEmpty, safe_float, JVal.eqStr, pyFloat,
      pyParseFloat, trimChars, splitFirstAt, parseSigned, parseMantissa, isDigits,
      digitsVal, digitVal]
    norm_num
  · simp +decide [receive_esp_data, Payload.isEmpty, mainStrictField, JVal.truthy,
      JVal.eqStr, pyFloat, pyParseFloat, trimChars, splitFirstAt, parseSigned,
      parseMantissa, isDigits, digitsVal, Bind.bind, Except.bind]

/-- C5 (witness): the never-fails part of the amended claim, instantiated at
a payload whose only field is the malformed string `"abc"`. -/
theorem C5_malformed_witness :
    (Payload.isEmpty { VAL1 := some (JVal.jstr "abc") } = false) ∧
    ∃ patch : EspPatch,
      process_esp_data { VAL1 := some (JVal.jstr "abc") } = .ok patch ∧
        patch.esp_connected = true :=
  ⟨by decide, C5_malformed_amended.1 { VAL1 := some (JVal.jstr "abc") } (by decide)⟩

/-! ## Claim C3 — electrical threshold bands -/

/-- C3: when both the preferred voltage and the current are absent the
electrical sub-score is `0` with the explicit no-data issue; per metric the
threshold bands are mutually exclusive — at most one fires, and it fires with
exactly one issue and a nonzero fixed deduction; in total at most two issues
arise; and for voltage 15 with current absent the score is exactly 60 with
exactly the one critical-undervoltage issue. -/
theorem C3_electrical_bands :
    (∀ d : HealthData,
        pyOrOpt d.esp_voltage d.plc_motor_voltage = none → d.esp_current = none →
          calculate_electrical_health d = (0, [Issue.noElectricalData])) ∧
    (∀ v : Option ℚ,
        (voltagePenalty v).2.length ≤ 1 ∧
          ((voltagePenalty v).1 = 0 ↔ (voltagePenalty v).2 = [])) ∧
    (∀ c : Option ℚ,
        (currentPenalty c).2.length ≤ 1 ∧
          ((currentPenalty c).1 = 0 ↔ (currentPenalty c).2 = [])) ∧
    (∀ d : HealthData, ((calculate_electrical_health d).2).length ≤ 2) ∧
    calculate_electrical_health { esp_voltage := some 15 } =
      (60, [Issue.criticalUndervoltage 15]) := by
  refine ⟨fun d h1 h2 => ?_, voltagePenalty_spec, currentPenalty_spec, fun d => ?_, ?_⟩
  · simp [calculate_electrical_health, h1, h2]
  · unfold calculate_electrical_health
    dsimp only
    split_ifs
    · simp
    · simp only [List.length_append]
      have hv := (voltagePenalty_spec (pyOrOpt d.esp_voltage d.plc_motor_voltage)).1
      have hc := (currentPenalty_spec d.esp_current).1
      omega
  · norm_num [calculate_electrical_health, voltagePenalty, currentPenalty, pyOrOpt,
      clampScore, SystemConfig.VOLTAGE_MIN_CRITICAL, min_def, max_def]
    simp

/-- C3 (witness): the no-data branch of the claim, instantiated at the
all-absent snapshot. -/
theorem C3_electrical_bands_witness :
    pyOrOpt (HealthData.esp_voltage {}) (HealthData.plc_motor_voltage {}) = none ∧
    HealthData.esp_current {} = none ∧
    calculate_electrical_health {} = (0, [Issue.noElectricalData]) :=
  ⟨rfl, rfl, C3_electrical_bands.1 {} rfl rfl⟩

/-! ## Claim C2 — predictive neutral default -/

/-- C2: any history window with fewer than 5 samples makes the predictive
sub-score exactly 50 with the insufficient-data issue, whatever the window
holds — in contrast with the electrical/thermal/mechanical missing-data
default of 0. -/
theorem C2_predictive_neutral_default :
    (∀ r : RecentData, r.rows.length < 5 →
        calculate_predictive_health r = (50, [Issue.insufficientData])) ∧
    (∀ d : HealthData,
        pyOrOpt d.esp_voltage d.plc_motor_voltage = none → d.esp_current = none →
          (calculate_electrical_health d).1 = 0) ∧
    (∀ d : HealthData, d.plc_motor_temp = none → d.env_temp_c = none →
        (calculate_thermal_health d).1 = 0) ∧
    (∀ d : HealthData, d.esp_rpm = none → (calculate_mechanical_health d).1 = 0) := by
  refine ⟨fun r h => ?_, fun d h1 h2 => ?_, fun d h1 h2 => ?_, fun d h => ?_⟩
  · simp [calculate_predictive_health, h]
  · simp [calculate_electrical_health, h1, h2]
  · simp [calculate_thermal_health, h1, h2]
  · simp [calculate_mechanical_health, h]

/-! ## Claim C6 — liveness sweep helpers -/

def isEspLost : MonitorEvent → Bool
  | .espConnectionLost _ => true
  | _ => false

def isPlcLost : MonitorEvent → Bool
  | .plcConnectionLost _ => true
  | _ => false

def countEspLost (evs : List MonitorEvent) : ℕ := evs.countP isEspLost

def countPlcLost (evs : List MonitorEvent) : ℕ := evs.countP isPlcLost

/-- The guard of the ESP `Connected → Disconnected` transition: the sweep
observes an elapsed time beyond the timeout for a device currently marked
connected. -/
def espTriggered (now : ℚ) (s : MonitorState) : Prop :=
  s.status.esp_connected = true ∧
    ∃ t, s.status.esp_last_seen = some t ∧ now - t > SystemConfig.ESP_TIMEOUT

def plcTriggered (now : ℚ) (s : MonitorState) : Prop :=
  s.status.plc_connected = true ∧
    ∃ t, s.status.plc_last_seen = some t ∧ now - t > SystemConfig.PLC_TIMEOUT

/-- The ESP-owned portion of the shared state. -/
def espView (s : MonitorState) :=
  (s.status.esp_connected, s.status.esp_last_seen,
   s.latest.esp_current, s.latest.esp_voltage, s.latest.esp_rpm, s.latest.env_temp_c,
   s.latest.env_humidity, s.latest.env_temp_f, s.latest.heat_index_c, s.latest.heat_index_f,
   s.latest.relay1_status, s.latest.relay2_status, s.latest.relay3_status,
   s.latest.combined_status)

/-- The PLC-owned portion of the shared state. -/
def plcView (s : MonitorState) :=
  (s.status.plc_connected, s.status.plc_last_seen,
   s.latest.plc_motor_temp, s.latest.plc_motor_voltage, s.latest.plc_connected)

lemma readKey_clearKey (x : Option (Option α)) : readKey (clearKey x) = none := by
  cases x <;> rfl

lemma espSweep_not_triggered (now : ℚ) (s : MonitorState) (h : ¬ espTriggered now s) :
    espSweep now s = (s, []) := by
  unfold espSweep
  rcases hls : s.status.esp_last_seen with _ | t
  · rfl
  · dsimp only
    split_ifs with h1 h2
    · exact absurd ⟨h2, t, hls, h1⟩ h
    · rfl
    · rfl

lemma espSweep_triggered (now : ℚ) (s : MonitorState) (hc : s.status.esp_connected = true)
    (t : ℚ) (hls : s.status.esp_last_seen = some t)
    (he : now - t > SystemConfig.ESP_TIMEOUT) :
    espSweep now s =
      ({ status := { s.status with esp_connected := false },
         latest := clearEspKeys s.latest },
       [.espConnectionLost (now - t)]) := by
  unfold espSweep
  rw [hls]
  dsimp only
  rw [if_pos he, if_pos hc]

lemma plcSweep_not_triggered (now : ℚ) (s : MonitorState) (h : ¬ plcTriggered now s) :
    plcSweep now s = (s, []) := by
  unfold plcSweep
  rcases hls : s.status.plc_last_seen with _ | t
  · rfl
  · dsimp only
    split_ifs with h1 h2
    · exact absurd ⟨h2, t, hls, h1⟩ h
    · rfl
    · rfl

lemma plcSweep_triggered (now : ℚ) (s : MonitorState) (hc : s.status.plc_connected = true)
    (t : ℚ) (hls : s.status.plc_last_seen = some t)
    (he : now - t > SystemConfig.PLC_TIMEOUT) :
    plcSweep now s =
      ({ status := { s.status with plc_connected := false },
         latest := { s.latest with
           plc_motor_temp := some none
           plc_motor_voltage := some none
           plc_connected := some false } },
       [.plcConnectionLost (now - t)]) := by
  unfold plcSweep
  rw [hls]
  dsimp only
  rw [if_pos he, if_pos hc]

lemma plcSweep_espView (now : ℚ) (s : MonitorState) :
    espView (plcSweep now s).1 = espView s := by
  unfold plcSweep
  rcases hls : s.status.plc_last_seen with _ | t
  · rfl
  · dsimp only
    split_ifs <;> rfl

lemma espSweep_plcView (now : ℚ) (s : MonitorState) :
    plcView (espSweep now s).1 = plcView s := by
  unfold espSweep
  rcases hls : s.status.esp_last_seen with _ | t
  · rfl
  · dsimp only
    split_ifs <;> rfl

lemma plcSweep_countEsp (now : ℚ) (s : MonitorState) :
    countEspLost (plcSweep now s).2 = 0 := by
  unfold plcSweep
  rcases hls : s.status.plc_last_seen with _ | t
  · rfl
  · dsimp only
    split_ifs <;> rfl

lemma espSweep_countPlc (now : ℚ) (s : MonitorState) :
    countPlcLost (espSweep now s).2 = 0 := by
  unfold espSweep
  rcases hls : s.status.esp_last_seen with _ | t
  · rfl
  · dsimp only
    split_ifs <;> rfl

lemma sweep_split (now : ℚ) (s : MonitorState) :
    connection_monitor_sweep now s =
      ((plcSweep now (espSweep now s).1).1,
       (espSweep now s).2 ++ (plcSweep now (espSweep now s).1).2 ++ [.statusUpdate]) := rfl

lemma sweep_esp_frozen (now : ℚ) (s : MonitorState) (h : ¬ espTriggered now s) :
    espView (connection_monitor_sweep now s).1 = espView s ∧
      countEspLost (connection_monitor_sweep now s).2 = 0 := by
  rw [sweep_split]
  rw [espSweep_not_triggered now s h]
  constructor
  · exact plcSweep_espView now s
  · have hp := plcSweep_countEsp now s
    simp only [countEspLost] at hp ⊢
    simp [List.countP_append, hp, isEspLost]

lemma sweep_plc_frozen (now : ℚ) (s : MonitorState) (h : ¬ plcTriggered now s) :
    plcView (connection_monitor_sweep now s).1 = plcView s ∧
      countPlcLost (connection_monitor_sweep now s).2 = 0 := by
  rw [sweep_split]
  have hplc : plcTriggered now (espSweep now s).1 ↔ plcTriggered now s := by
    unfold plcTriggered
    rw [show (espSweep now s).1.status.plc_connected = s.status.plc_connected from
          congrArg (fun v => v.1) (espSweep_plcView now s),
        show (espSweep now s).1.status.plc_last_seen = s.status.plc_last_seen from
          congrArg (fun v => v.2.1) (espSweep_plcView now s)]
  rw [plcSweep_not_triggered now _ (fun hc => h (hplc.mp hc))]
  constructor
  · exact espSweep_plcView now s
  · have hp := espSweep_countPlc now s
    simp only [countPlcLost] at hp ⊢
    simp [List.countP_append, hp, isPlcLost]

lemma plcSweep_keeps_esp (now : ℚ) (s : MonitorState) :
    (plcSweep now s).1.status.esp_connected = s.status.esp_connected ∧
    (plcSweep now s).1.latest.esp_current = s.latest.esp_current ∧
    (plcSweep now s).1.latest.esp_voltage = s.latest.esp_voltage ∧
    (plcSweep now s).1.latest.esp_rpm = s.latest.esp_rpm ∧
    (plcSweep now s).1.latest.env_temp_c = s.latest.env_temp_c ∧
    (plcSweep now s).1.latest.env_humidity = s.latest.env_humidity ∧
    (plcSweep now s).1.latest.env_temp_f = s.latest.env_temp_f ∧
    (plcSweep now s).1.latest.heat_index_c = s.latest.heat_index_c ∧
    (plcSweep now s).1.latest.heat_index_f = s.latest.heat_index_f ∧
    (plcSweep now s).1.latest.relay1_status = s.latest.relay1_status ∧
    (plcSweep now s).1.latest.relay2_status = s.latest.relay2_status ∧
    (plcSweep now s).1.latest.relay3_status = s.latest.relay3_status ∧
    (plcSweep now s).1.latest.combined_status = s.latest.combined_status := by
  unfold plcSweep
  rcases hls : s.status.plc_last_seen with _ | t
  · exact ⟨rfl, rfl, rfl, rfl, rfl, rfl, rfl, rfl, rfl, rfl, rfl, rfl, rfl⟩
  · dsimp only
    split_ifs <;> exact ⟨rfl, rfl, rfl, rfl, rfl, rfl, rfl, rfl, rfl, rfl, rfl, rfl, rfl⟩

lemma sweep_esp_fire (now : ℚ) (s : MonitorState) (t : ℚ)
    (hls : s.status.esp_last_seen = some t) (h : espTriggered now s) :
    (connection_monitor_sweep now s).1.status.esp_connected = false ∧
    readKey (connection_monitor_sweep now s).1.latest.esp_current = none ∧
    readKey (connection_monitor_sweep now s).1.latest.esp_voltage = none ∧
    readKey (connection_monitor_sweep now s).1.latest.esp_rpm = none ∧
    readKey (connection_monitor_sweep now s).1.latest.env_temp_c = none ∧
    readKey (connection_monitor_sweep now s).1.latest.env_humidity = none ∧
    readKey (connection_monitor_sweep now s).1.latest.env_temp_f = none ∧
    readKey (connection_monitor_sweep now s).1.latest.heat_index_c = none ∧
    readKey (connection_monitor_sweep now s).1.latest.heat_index_f = none ∧
    readKey (connection_monitor_sweep now s).1.latest.relay1_status = none ∧
    readKey (connection_monitor_sweep now s).1.latest.relay2_status = none ∧
    readKey (connection_monitor_sweep now s).1.latest.relay3_status = none ∧
    readKey (connection_monitor_sweep now s).1.latest.combined_status = none ∧
    MonitorEvent.espConnectionLost (now - t) ∈ (connection_monitor_sweep now s).2 ∧
    countEspLost (connection_monitor_sweep now s).2 = 1 := by
  obtain ⟨hc, t', hls', he⟩ := h
  rw [hls] at hls'
  injection hls' with ht
  subst ht
  have heq := espSweep_triggered now s hc t hls he
  rw [sweep_split, heq]
  dsimp only
  obtain ⟨k1, k2, k3, k4, k5, k6, k7, k8, k9, k10, k11, k12, k13⟩ :=
    plcSweep_keeps_esp now
      { status := { s.status with esp_connected := false }, latest := clearEspKeys s.latest }
  refine ⟨k1, ?_, ?_, ?_, ?_, ?_, ?_, ?_, ?_, ?_, ?_, ?_, ?_, ?_, ?_⟩
  · rw [k2]; exact readKey_clearKey _
  · rw [k3]; exact readKey_clearKey _
  · rw [k4]; exact readKey_clearKey _
  · rw [k5]; exact readKey_clearKey _
  · rw [k6]; exact readKey_clearKey _
  · rw [k7]; exact readKey_clearKey _
  · rw [k8]; exact readKey_clearKey _
  · rw [k9]; exact readKey_clearKey _
  · rw [k10]; exact readKey_clearKey _
  · rw [k11]; exact readKey_clearKey _
  · rw [k12]; exact readKey_clearKey _
  · rw [k13]; exact readKey_clearKey _
  · simp
  · have hp := plcSweep_countEsp now
      { status := { s.status with esp_connected := false }, latest := clearEspKeys s.latest }
    simp only [countEspLost] at hp ⊢
    simp [List.countP_append, List.countP_cons, hp, isEspLost]

lemma espSweep_keeps_plc (now : ℚ) (s : MonitorState) :
    (espSweep now s).1.status.plc_connected = s.status.plc_connected ∧
    (espSweep now s).1.status.plc_last_seen = s.status.plc_last_seen := by
  unfold espSweep
  rcases hls : s.status.esp_last_seen with _ | t
  · exact ⟨rfl, rfl⟩
  · dsimp only
    split_ifs <;> exact ⟨rfl, rfl⟩

lemma sweep_plc_fire (now : ℚ) (s : MonitorState) (t : ℚ)
    (hls : s.status.plc_last_seen = some t) (h : plcTriggered now s) :
    (connection_monitor_sweep now s).1.status.plc_connected = false ∧
    readKey (connection_monitor_sweep now s).1.latest.plc_motor_temp = none ∧
    readKey (connection_monitor_sweep now s).1.latest.plc_motor_voltage = none ∧
    MonitorEvent.plcConnectionLost (now - t) ∈ (connection_monitor_sweep now s).2 ∧
    countPlcLost (connection_monitor_sweep now s).2 = 1 := by
  obtain ⟨hc, t', hls', he⟩ := h
  rw [hls] at hls'
  injection hls' with ht
  subst ht
  obtain ⟨j1, j2⟩ := espSweep_keeps_plc now s
  have heq := plcSweep_triggered now (espSweep now s).1 (j1.trans hc) t (j2.trans hls) he
  rw [sweep_split, heq]
  dsimp only
  refine ⟨rfl, rfl, rfl, ?_, ?_⟩
  · simp
  · have hp := espSweep_countPlc now s
    simp only [countPlcLost] at hp ⊢
    simp [List.countP_append, List.countP_cons, isPlcLost, hp]

/-- C6: per device and per sweep, the disconnect transition fires only when
the elapsed time exceeds the device timeout and the device is currently
marked connected; on that transition the device's dependent snapshot fields
read as absent and exactly one connection-lost event is emitted; a sweep
whose guard does not hold leaves the device's state untouched and emits no
connection-lost event; and after a firing sweep every further sweep is a
no-op for that device (edge-triggered, not level-triggered). -/
theorem C6_liveness_edge_triggered :
    (∀ now : ℚ, ∀ s : MonitorState, ¬ espTriggered now s →
        espView (connection_monitor_sweep now s).1 = espView s ∧
          countEspLost (connection_monitor_sweep now s).2 = 0) ∧
    (∀ now : ℚ, ∀ s : MonitorState, ∀ t : ℚ,
        s.status.esp_last_seen = some t → espTriggered now s →
        (connection_monitor_sweep now s).1.status.esp_connected = false ∧
        readKey (connection_monitor_sweep now s).1.latest.esp_current = none ∧
        readKey (connection_monitor_sweep now s).1.latest.esp_voltage = none ∧
        readKey (connection_monitor_sweep now s).1.latest.esp_rpm = none ∧
        readKey (connection_monitor_sweep now s).1.latest.env_temp_c = none ∧
        readKey (connection_monitor_sweep now s).1.latest.env_humidity = none ∧
        readKey (connection_monitor_sweep now s).1.latest.env_temp_f = none ∧
        readKey (connection_monitor_sweep now s).1.latest.heat_index_c = none ∧
        readKey (connection_monitor_sweep now s).1.latest.heat_index_f = none ∧
        readKey (connection_monitor_sweep now s).1.latest.relay1_status = none ∧
        readKey (connection_monitor_sweep now s).1.latest.relay2_status = none ∧
        readKey (connection_monitor_sweep now s).1.latest.relay3_status = none ∧
        readKey (connection_monitor_sweep now s).1.latest.combined_status = none ∧
        MonitorEvent.espConnectionLost (now - t) ∈ (connection_monitor_sweep now s).2 ∧
        countEspLost (connection_monitor_sweep now s).2 = 1) ∧
    (∀ now now2 : ℚ, ∀ s : MonitorState, espTriggered now s →
        espView (connection_monitor_sweep now2 (connection_monitor_sweep now s).1).1 =
          espView (connection_monitor_sweep now s).1 ∧
        countEspLost (connection_monitor_sweep now2 (connection_monitor_sweep now s).1).2 = 0) ∧
    (∀ now : ℚ, ∀ s : MonitorState, ¬ plcTriggered now s →
        plcView (connection_monitor_sweep now s).1 = plcView s ∧
          countPlcLost (connection_monitor_sweep now s).2 = 0) ∧
    (∀ now : ℚ, ∀ s : MonitorState, ∀ t : ℚ,
        s.status.plc_last_seen = some t → plcTriggered now s →
        (connection_monitor_sweep now s).1.status.plc_connected = false ∧
        readKey (connection_monitor_sweep now s).1.latest.plc_motor_temp = none ∧
        readKey (connection_monitor_sweep now s).1.latest.plc_motor_voltage = none ∧
        MonitorEvent.plcConnectionLost (now - t) ∈ (connection_monitor_sweep now s).2 ∧
        countPlcLost (connection_monitor_sweep now s).2 = 1) ∧
    (∀ now now2 : ℚ, ∀ s : MonitorState, ∀ t : ℚ,
        s.status.plc_last_seen = some t → plcTriggered now s →
        plcView (connection_monitor_sweep now2 (connection_monitor_sweep now s).1).1 =
          plcView (connection_monitor_sweep now s).1 ∧
        countPlcLost (connection_monitor_sweep now2 (connection_monitor_sweep now s).1).2 = 0) := by
  refine ⟨sweep_esp_frozen, sweep_esp_fire, fun now now2 s h => ?_, sweep_plc_frozen,
    sweep_plc_fire, fun now now2 s t hls h => ?_⟩
  · obtain ⟨hc, t, hls, he⟩ := h
    have hf := sweep_esp_fire now s t hls ⟨hc, t, hls, he⟩
    refine sweep_esp_frozen now2 _ (fun htr => ?_)
    rw [htr.1] at hf
    exact Bool.noConfusion hf.1
  · have hf := sweep_plc_fire now s t hls h
    refine sweep_plc_frozen now2 _ (fun htr => ?_)
    rw [htr.1] at hf
    exact Bool.noConfusion hf.1

/-- C6 (witness): a concrete sweep at time 100 over a connected ESP last seen
at time 0 flips the flag, clears the fields, emits exactly one
connection-lost event; and a repeated sweep at time 200 changes nothing and
emits none. -/
theorem C6_liveness_edge_triggered_witness :
    espTriggered 100
      { status := { esp_connected := true, plc_connected := false,
                    esp_last_seen := some 0, plc_last_seen := none },
        latest := { esp_current := some (some 5) } } ∧
    (connection_monitor_sweep 100
        { status := { esp_connected := true, plc_connected := false,
                      esp_last_seen := some 0, plc_last_seen := none },
          latest := { esp_current := some (some 5) } }).1.status.esp_connected = false ∧
    readKey (connection_monitor_sweep 100
        { status := { esp_connected := true, plc_connected := false,
                      esp_last_seen := some 0, plc_last_seen := none },
          latest := { esp_current := some (some 5) } }).1.latest.esp_current = none ∧
    countEspLost (connection_monitor_sweep 100
        { status := { esp_connected := true, plc_connected := false,
                      esp_last_seen := some 0, plc_last_seen := none },
          latest := { esp_current := some (some 5) } }).2 = 1 ∧
    countEspLost (connection_monitor_sweep 200 (connection_monitor_sweep 100
        { status := { esp_connected := true, plc_connected := false,
                      esp_last_seen := some 0, plc_last_seen := none },
          latest := { esp_current := some (some 5) } }).1).2 = 0 := by
  have htrig : espTriggered 100
      { status := { esp_connected := true, plc_connected := false,
                    esp_last_seen := some 0, plc_last_seen := none },
        latest := { esp_current := some (some 5) } } :=
    ⟨rfl, 0, rfl, by norm_num [SystemConfig.ESP_TIMEOUT]⟩
  obtain ⟨h1, h2, -, -, -, -, -, -, -, -, -, -, -, -, h15⟩ :=
    C6_liveness_edge_triggered.2.1 100 _ 0 rfl htrig
  obtain ⟨-, h17⟩ := C6_liveness_edge_triggered.2.2.1 100 200 _ htrig
  exact ⟨htrig, h1, h2, h15, h17⟩

/-! ## Claim C1 — comprehensive health scores, weights and status bands -/

lemma round1_bounds {q : ℚ} (h1 : 0 ≤ q) (h2 : q ≤ 100) :
    0 ≤ round1 q ∧ round1 q ≤ 100 :=
  ⟨round1_nonneg h1, round1_le_100 h2⟩

lemma overallScore_bounds (d : HealthData) (recent : Option RecentData) :
    0 ≤ overallScore d recent ∧ overallScore d recent ≤ 100 := by
  obtain ⟨e1, e2⟩ := electrical_score_bounds d
  obtain ⟨t1, t2⟩ := thermal_score_bounds d
  obtain ⟨m1, m2⟩ := mechanical_score_bounds d
  obtain ⟨p1, p2⟩ := predictiveComponent_bounds recent
  unfold overallScore
  constructor <;> nlinarith

lemma comp_overall (d : HealthData) (recent : Option RecentData) :
    (calculate_comprehensive_health d recent).overall_health_score =
      round1 (overallScore d recent) := rfl

lemma comp_electrical (d : HealthData) (recent : Option RecentData) :
    (calculate_comprehensive_health d recent).electrical_health =
      round1 (calculate_electrical_health d).1 := rfl

lemma comp_thermal (d : HealthData) (recent : Option RecentData) :
    (calculate_comprehensive_health d recent).thermal_health =
      round1 (calculate_thermal_health d).1 := rfl

lemma comp_mechanical (d : HealthData) (recent : Option RecentData) :
    (calculate_comprehensive_health d recent).mechanical_health =
      round1 (calculate_mechanical_health d).1 := rfl

lemma comp_predictive (d : HealthData) (recent : Option RecentData) :
    (calculate_comprehensive_health d recent).predictive_health =
      round1 (predictiveComponent recent).1 := rfl

lemma comp_efficiency (d : HealthData) (recent : Option RecentData) :
    (calculate_comprehensive_health d recent).efficiency_score =
      round1 (calculate_efficiency_score d) := rfl

lemma comp_status (d : HealthData) (recent : Option RecentData) :
    (calculate_comprehensive_health d recent).status =
      if overallScore d recent ≥ 90 then "Excellent"
      else if overallScore d recent ≥ 75 then "Good"
      else if overallScore d recent ≥ 60 then "Warning"
      else "Critical" := by
  unfold calculate_comprehensive_health overallScore
  dsimp only
  split_ifs <;> rfl

lemma status_iffs (d : HealthData) (recent : Option RecentData) :
    ((calculate_comprehensive_health d recent).status = "Excellent" ↔
      90 ≤ overallScore d recent) ∧
    ((calculate_comprehensive_health d recent).status = "Good" ↔
      75 ≤ overallScore d recent ∧ overallScore d recent < 90) ∧
    ((calculate_comprehensive_health d recent).status = "Warning" ↔
      60 ≤ overallScore d recent ∧ overallScore d recent < 75) ∧
    ((calculate_comprehensive_health d recent).status = "Critical" ↔
      overallScore d recent < 60) := by
  by_cases h1 : overallScore d recent ≥ 90
  · have hst : (calculate_comprehensive_health d recent).status = "Excellent" := by
      rw [comp_status, if_pos h1]
    rw [hst]
    refine ⟨iff_of_true rfl h1, iff_of_false (by decide) ?_, iff_of_false (by decide) ?_,
      iff_of_false (by decide) ?_⟩
    · rintro ⟨-, h⟩
      linarith
    · rintro ⟨-, h⟩
      linarith
    · intro h
      linarith
  · by_cases h2 : overallScore d recent ≥ 75
    · have hst : (calculate_comprehensive_health d recent).status = "Good" := by
        rw [comp_status, if_neg h1, if_pos h2]
      rw [hst]
      refine ⟨iff_of_false (by decide) h1, iff_of_true rfl ⟨h2, not_le.mp h1⟩,
        iff_of_false (by decide) ?_, iff_of_false (by decide) ?_⟩
      · rintro ⟨-, h⟩
        linarith
      · intro h
        linarith
    · by_cases h3 : overallScore d recent ≥ 60
      · have hst : (calculate_comprehensive_health d recent).status = "Warning" := by
          rw [comp_status, if_neg h1, if_neg h2, if_pos h3]
        rw [hst]
        refine ⟨iff_of_false (by decide) h1, iff_of_false (by decide) ?_,
          iff_of_true rfl ⟨h3, not_le.mp h2⟩, iff_of_false (by decide) ?_⟩
        · rintro ⟨h, -⟩
          exact h2 h
        · intro h
          linarith
      · have hst : (calculate_comprehensive_health d recent).status = "Critical" := by
          rw [comp_status, if_neg h1, if_neg h2, if_neg h3]
        rw [hst]
        refine ⟨iff_of_false (by decide) h1, iff_of_false (by decide) ?_,
          iff_of_false (by decide) ?_, iff_of_true rfl (not_le.mp h3)⟩
        · rintro ⟨h, -⟩
          exact h2 h
        · rintro ⟨h, -⟩
          exact h3 h

/-- C1: every sub-score and the efficiency score returned by the scorer lie in
[0, 100]; the overall score is the fixed 0.30/0.35/0.25/0.10 weighting of the
four sub-scores (its reported value being that sum rounded to one decimal)
and lies in [0, 100]; and the status label follows the fixed bands of the
unrounded overall score. -/
theorem C1_comprehensive_health_scores (d : HealthData) (recent : Option RecentData) :
    (0 ≤ (calculate_comprehensive_health d recent).electrical_health ∧
      (calculate_comprehensive_health d recent).electrical_health ≤ 100) ∧
    (0 ≤ (calculate_comprehensive_health d recent).thermal_health ∧
      (calculate_comprehensive_health d recent).thermal_health ≤ 100) ∧
    (0 ≤ (calculate_comprehensive_health d recent).mechanical_health ∧
      (calculate_comprehensive_health d recent).mechanical_health ≤ 100) ∧
    (0 ≤ (calculate_comprehensive_health d recent).predictive_health ∧
      (calculate_comprehensive_health d recent).predictive_health ≤ 100) ∧
    (0 ≤ (calculate_comprehensive_health d recent).efficiency_score ∧
      (calculate_comprehensive_health d recent).efficiency_score ≤ 100) ∧
    overallScore d recent =
      0.30 * (calculate_electrical_health d).1 + 0.35 * (calculate_thermal_health d).1 +
        0.25 * (calculate_mechanical_health d).1 + 0.10 * (predictiveComponent recent).1 ∧
    (calculate_comprehensive_health d recent).overall_health_score =
      round1 (overallScore d recent) ∧
    (0 ≤ overallScore d recent ∧ overallScore d recent ≤ 100) ∧
    (0 ≤ (calculate_comprehensive_health d recent).overall_health_score ∧
      (calculate_comprehensive_health d recent).overall_health_score ≤ 100) ∧
    ((calculate_comprehensive_health d recent).status = "Excellent" ↔
      90 ≤ overallScore d recent) ∧
    ((calculate_comprehensive_health d recent).status = "Good" ↔
      75 ≤ overallScore d recent ∧ overallScore d recent < 90) ∧
    ((calculate_comprehensive_health d recent).status = "Warning" ↔
      60 ≤ overallScore d recent ∧ overallScore d recent < 75) ∧
    ((calculate_comprehensive_health d recent).status = "Critical" ↔
      overallScore d recent < 60) := by
  obtain ⟨hov1, hov2⟩ := overallScore_bounds d recent
  obtain ⟨hs1, hs2, hs3, hs4⟩ := status_iffs d recent
  refine ⟨?_, ?_, ?_, ?_, ?_, by unfold overallScore; ring, comp_overall d recent,
    ⟨hov1, hov2⟩, ?_, hs1, hs2, hs3, hs4⟩
  · rw [comp_electrical]
    exact round1_bounds (electrical_score_bounds d).1 (electrical_score_bounds d).2
  · rw [comp_thermal]
    exact round1_bounds (thermal_score_bounds d).1 (thermal_score_bounds d).2
  · rw [comp_mechanical]
    exact round1_bounds (mechanical_score_bounds d).1 (mechanical_score_bounds d).2
  · rw [comp_predictive]
    exact round1_bounds (predictiveComponent_bounds recent).1 (predictiveComponent_bounds recent).2
  · rw [comp_efficiency]
    exact round1_bounds (efficiency_score_bounds d).1 (efficiency_score_bounds d).2
  · rw [comp_overall]
    exact round1_bounds hov1 hov2

/-! ## Claim C10 — mechanical cross-check division safety -/

lemma expected_current_pos {rpm : ℚ} (h : 0 < rpm) : 0 < expected_current rpm := by
  unfold expected_current SystemConfig.OPTIMAL_RPM SystemConfig.OPTIMAL_CURRENT
  positivity

lemma imbalancePenalty_variants_eq (c : Option ℚ) (rpm : ℚ) :
    imbalancePenaltyMain c rpm = imbalancePenaltyAi c rpm := by
  unfold imbalancePenaltyMain imbalancePenaltyAi
  rcases c with _ | c
  · rfl
  · dsimp only
    by_cases hr : rpm > 0
    · have hec := expected_current_pos hr
      simp [hr, hec]
    · simp [hr]

/-- C10: the mechanical sub-score is total — the imbalance division is reached
only under an `rpm > 0` guard with current present, and the configured
optimum (`OPTIMAL_RPM = 2750`, `OPTIMAL_CURRENT = 6.25`) is strictly
positive, so the expected current is strictly positive there; hence the
unguarded `main.py` variant agrees everywhere with the guarded `src/ai`
variant. -/
theorem C10_mechanical_division_safety :
    (∀ d : HealthData, calculate_mechanical_health d = calculate_mechanical_health_ai d) ∧
    (∀ rpm : ℚ, 0 < rpm → 0 < expected_current rpm) ∧
    0 < SystemConfig.OPTIMAL_RPM ∧ 0 < SystemConfig.OPTIMAL_CURRENT := by
  refine ⟨fun d => ?_, fun rpm h => expected_current_pos h, by norm_num [SystemConfig.OPTIMAL_RPM],
    by norm_num [SystemConfig.OPTIMAL_CURRENT]⟩
  unfold calculate_mechanical_health calculate_mechanical_health_ai
  rcases hr : d.esp_rpm with _ | rpm
  · rfl
  · dsimp only
    rw [imbalancePenalty_variants_eq]

/-- C10 (witness): the positivity part instantiated at the optimal rpm, and
the variant agreement at a concrete snapshot that takes the division path. -/
theorem C10_mechanical_division_safety_witness :
    ((0 : ℚ) < 2750 ∧ 0 < expected_current 2750) ∧
    calculate_mechanical_health { esp_rpm := some 2750, esp_current := some 1 } =
      calculate_mechanical_health_ai { esp_rpm := some 2750, esp_current := some 1 } :=
  ⟨⟨by norm_num, C10_mechanical_division_safety.2.1 2750 (by norm_num)⟩,
    C10_mechanical_division_safety.1 { esp_rpm := some 2750, esp_current := some 1 }⟩

/-! ## Claim C8 — recommendation ordering -/

/-- C8: the recommendation list is truncated to at most 10 entries, and the
sort is a stable descending sort by the fixed priority rank: for one CRITICAL
`a`, one HIGH `b` and two MEDIUM `c`, `d` presented in any input order with
`c` before `d`, the sorted output is exactly `[a, b, c, d]`; a concrete
end-to-end run of `generate_recommendations` shows the same order. -/
theorem C8_recommendation_ordering :
    (∀ h : HealthResult, ∀ c : ConnectionStatus,
        (generate_recommendations h c).length ≤ 10) ∧
    (∀ a b c d : Recommendation,
        a.priority = "CRITICAL" → b.priority = "HIGH" →
        c.priority = "MEDIUM" → d.priority = "MEDIUM" →
        ∀ l : List Recommendation,
          (l = [a, b, c, d] ∨ l = [a, c, b, d] ∨ l = [a, c, d, b] ∨
           l = [b, a, c, d] ∨ l = [b, c, a, d] ∨ l = [b, c, d, a] ∨
           l = [c, a, b, d] ∨ l = [c, a, d, b] ∨ l = [c, b, a, d] ∨
           l = [c, b, d, a] ∨ l = [c, d, a, b] ∨ l = [c, d, b, a]) →
          (sortByPriorityDesc l).take 10 = [a, b, c, d]) ∧
    generate_recommendations
        { overall_health_score := 50, electrical_health := 65, thermal_health := 65,
          mechanical_health := 100, predictive_health := 50, efficiency_score := 0,
          status := "Critical", status_class := "danger", electrical_issues := [],
          thermal_issues := [], mechanical_issues := [], predictive_issues := [] }
        { esp_connected := false, plc_connected := true } =
      [criticalHealthRec, espDisconnectedRec, electricalWarningRec, thermalWarningRec] := by
  refine ⟨fun h c => ?_, fun a b c d ha hb hc hd l hl => ?_, ?_⟩
  · unfold generate_recommendations
    exact List.length_take_le 10 _
  · rcases hl with rfl | rfl | rfl | rfl | rfl | rfl | rfl | rfl | rfl | rfl | rfl | rfl <;>
      simp +decide [sortByPriorityDesc, insertByPriorityDesc, priority_order, ha, hb, hc, hd]
  · norm_num [generate_recommendations, buildRecommendations, sortByPriorityDesc,
      insertByPriorityDesc, priority_order, espDisconnectedRec, plcDisconnectedRec,
      criticalHealthRec, electricalWarningRec, thermalWarningRec, mechanicalWarningRec]
    simp +decide

/-- C8 (witness): the stable-sort part instantiated at the four concrete rule
records, presented MEDIUM-MEDIUM-CRITICAL-HIGH. -/
theorem C8_recommendation_ordering_witness :
    (sortByPriorityDesc
        [electricalWarningRec, thermalWarningRec, criticalHealthRec, espDisconnectedRec]).take 10 =
      [criticalHealthRec, espDisconnectedRec, electricalWarningRec, thermalWarningRec] :=
  C8_recommendation_ordering.2.1 criticalHealthRec espDisconnectedRec electricalWarningRec
    thermalWarningRec rfl rfl rfl rfl
    [electricalWarningRec, thermalWarningRec, criticalHealthRec, espDisconnectedRec]
    (Or.inr (Or.inr (Or.inr (Or.inr (Or.inr (Or.inr (Or.inr (Or.inr (Or.inr (Or.inr
      (Or.inl rfl)))))))))))

/-! ## Claim C7 — alert promotion and deduplication -/

lemma promoteStep_not_promotable (now : ℚ) (acc : List Alert × List Recommendation)
    (r : Recommendation) (h : promotable r = false) : promoteStep now acc r = acc := by
  unfold promoteStep
  rw [h]
  rfl

lemma promoteStep_suppressed (now : ℚ) (acc : List Alert × List Recommendation)
    (r : Recommendation) (hp : promotable r = true)
    (hm : acc.1.any (matchesExisting now r) = true) : promoteStep now acc r = acc := by
  unfold promoteStep
  rw [hp, hm]
  rfl

lemma promoteStep_fresh (now : ℚ) (acc : List Alert × List Recommendation)
    (r : Recommendation) (hp : promotable r = true)
    (hm : acc.1.any (matchesExisting now r) = false) :
    promoteStep now acc r = (acc.1 ++ [mkAlert now r], acc.2 ++ [r]) := by
  unfold promoteStep
  rw [hp, hm]
  rfl

lemma foldl_promote_mem (recs : List Recommendation) :
    ∀ (now : ℚ) (acc : List Alert × List Recommendation),
      ∀ a ∈ (recs.foldl (promoteStep now) acc).1,
        a ∈ acc.1 ∨ ∃ r ∈ recs, promotable r = true ∧ a = mkAlert now r := by
  induction recs with
  | nil => intro now acc a ha; exact Or.inl ha
  | cons r rs ih =>
    intro now acc a ha
    simp only [List.foldl_cons] at ha
    rcases ih now (promoteStep now acc r) a ha with h | ⟨r', hr', hp, he⟩
    · unfold promoteStep at h
      split_ifs at h with hp hm
      · exact Or.inl h
      · rcases List.mem_append.mp h with h | h
        · exact Or.inl h
        · exact Or.inr ⟨r, List.mem_cons_self r rs, hp, List.mem_singleton.mp h⟩
      · exact Or.inl h
    · exact Or.inr ⟨r', List.mem_cons_of_mem r hr', hp, he⟩

lemma foldl_promote_silent (recs : List Recommendation) :
    ∀ (now : ℚ) (acc : List Alert × List Recommendation),
      (∀ r ∈ recs, promotable r = false) → recs.foldl (promoteStep now) acc = acc := by
  induction recs with
  | nil => intro now acc _; rfl
  | cons r rs ih =>
    intro now acc h
    simp only [List.foldl_cons]
    rw [promoteStep_not_promotable now acc r (h r (List.mem_cons_self r rs))]
    exact ih now acc (fun r' hr' => h r' (List.mem_cons_of_mem r hr'))

lemma matchesExisting_congr (now : ℚ) (r r' : Recommendation)
    (h : r'.rec_type = r.rec_type) : matchesExisting now r' = matchesExisting now r := by
  funext a
  unfold matchesExisting
  rw [h]

lemma matchesExisting_mkAlert_self (now t1 : ℚ) (r : Recommendation)
    (h : now - 30 < t1) : matchesExisting now r (mkAlert t1 r) = true := by
  unfold matchesExisting mkAlert
  simp [h]

/-- C7: only recommendations with severity HIGH or CRITICAL and confidence
strictly above 0.8 are ever persisted; with an unacknowledged same-type alert
inside the trailing 30-minute window the promotion is suppressed; otherwise
exactly one Alert is persisted together with exactly one real-time event —
also when the same type is promoted twice in one cycle; a repeat promotion
within the window of a previous one persists nothing, while a repeat after
the window persists a second Alert. -/
theorem C7_alert_promotion_dedup :
    (∀ now : ℚ, ∀ recs : List Recommendation, ∀ db : List Alert,
        ∀ a ∈ (save_critical_alerts now recs db).1,
          a ∈ db ∨ ∃ r ∈ recs, promotable r = true ∧ a = mkAlert now r) ∧
    (∀ now : ℚ, ∀ recs : List Recommendation, ∀ db : List Alert,
        (∀ r ∈ recs, promotable r = false) →
          save_critical_alerts now recs db = (db, [])) ∧
    (∀ now : ℚ, ∀ db : List Alert, ∀ r : Recommendation,
        promotable r = true → db.any (matchesExisting now r) = true →
          save_critical_alerts now [r] db = (db, [])) ∧
    (∀ now : ℚ, ∀ db : List Alert, ∀ r : Recommendation,
        promotable r = true → db.any (matchesExisting now r) = false →
          save_critical_alerts now [r] db = (db ++ [mkAlert now r], [r])) ∧
    (∀ now : ℚ, ∀ db : List Alert, ∀ r r' : Recommendation,
        promotable r = true → promotable r' = true → r'.rec_type = r.rec_type →
        db.any (matchesExisting now r) = false →
          save_critical_alerts now [r, r'] db = (db ++ [mkAlert now r], [r])) ∧
    (∀ t1 t2 : ℚ, ∀ db : List Alert, ∀ r : Recommendation,
        promotable r = true → db.any (matchesExisting t1 r) = false →
        t2 - 30 < t1 →
          save_critical_alerts t2 [r] (save_critical_alerts t1 [r] db).1 =
            ((save_critical_alerts t1 [r] db).1, [])) ∧
    (∀ t1 t2 : ℚ, ∀ r : Recommendation,
        promotable r = true → t1 ≤ t2 - 30 →
          (save_critical_alerts t2 [r] (save_critical_alerts t1 [r] []).1).1 =
            [mkAlert t1 r, mkAlert t2 r]) := by
  have hsingle : ∀ (now : ℚ) (db : List Alert) (r : Recommendation),
      save_critical_alerts now [r] db = promoteStep now (db, []) r := by
    intro now db r; rfl
  have hfresh : ∀ (now : ℚ) (db : List Alert) (r : Recommendation),
      promotable r = true → db.any (matchesExisting now r) = false →
        save_critical_alerts now [r] db = (db ++ [mkAlert now r], [r]) := by
    intro now db r hp hm
    rw [hsingle, promoteStep_fresh now (db, []) r hp hm]
    rfl
  refine ⟨fun now recs db => foldl_promote_mem recs now (db, []),
    fun now recs db h => foldl_promote_silent recs now (db, []) h,
    fun now db r hp hm => ?_, hfresh, fun now db r r' hp hp' hty hm => ?_,
    fun t1 t2 db r hp hm hw => ?_, fun t1 t2 r hp hw => ?_⟩
  · rw [hsingle, promoteStep_suppressed now (db, []) r hp hm]
  · show List.foldl (promoteStep now) (db, []) [r, r'] = (db ++ [mkAlert now r], [r])
    simp only [List.foldl_cons, List.foldl_nil]
    rw [promoteStep_fresh now (db, []) r hp hm]
    refine promoteStep_suppressed now _ r' hp' ?_
    rw [matchesExisting_congr now r r' hty]
    have hnew : matchesExisting now r (mkAlert now r) = true :=
      matchesExisting_mkAlert_self now now r (by linarith)
    simp [List.any_append, hnew]
  · rw [hfresh t1 db r hp hm, hsingle]
    refine promoteStep_suppressed t2 _ r hp ?_
    have hnew : matchesExisting t2 r (mkAlert t1 r) = true :=
      matchesExisting_mkAlert_self t2 t1 r hw
    simp [List.any_append, hnew]
  · have h1 : save_critical_alerts t1 [r] [] = ([mkAlert t1 r], [r]) := by
      rw [hfresh t1 [] r hp rfl]
      rfl
    rw [h1]
    have hold : matchesExisting t2 r (mkAlert t1 r) = false := by
      unfold matchesExisting mkAlert
      simp only [Bool.and_eq_false_iff]
      right
      simp only [decide_eq_false_iff_not, not_lt]
      linarith
    have hm2 : List.any [mkAlert t1 r] (matchesExisting t2 r) = false := by
      simp [hold]
    rw [hfresh t2 [mkAlert t1 r] r hp hm2]
    rfl

/-- C7 (witness): the fresh-promotion branch instantiated for the CRITICAL
health recommendation against an empty alert table, and the within-window
suppression at minute 20 after a promotion at minute 0. -/
theorem C7_alert_promotion_dedup_witness :
    promotable criticalHealthRec = true ∧
    List.any [] (matchesExisting 0 criticalHealthRec) = false ∧
    save_critical_alerts 0 [criticalHealthRec] [] =
      ([mkAlert 0 criticalHealthRec], [criticalHealthRec]) ∧
    (20 : ℚ) - 30 < 0 ∧
    save_critical_alerts 20 [criticalHealthRec]
        (save_critical_alerts 0 [criticalHealthRec] []).1 =
      ((save_critical_alerts 0 [criticalHealthRec] []).1, []) := by
  have hp : promotable criticalHealthRec = true := by
    norm_num [promotable, criticalHealthRec]
  exact ⟨hp, rfl, C7_alert_promotion_dedup.2.2.2.1 0 [] criticalHealthRec hp rfl,
    by norm_num,
    C7_alert_promotion_dedup.2.2.2.2.2.1 0 20 [] criticalHealthRec hp rfl (by norm_num)⟩

/-- C2 (witness): a 4-sample window with extreme contents still yields the
neutral (50, insufficient-data) result. -/
theorem C2_predictive_neutral_default_witness :
    (RecentData.rows
        { rows := [{ plc_motor_temp := some 1000, esp_current := some 900 },
                   { plc_motor_temp := some 0, esp_current := some 0,
                     overall_health_score := some 0 }, {}, {}] }).length < 5 ∧
    calculate_predictive_health
        { rows := [{ plc_motor_temp := some 1000, esp_current := some 900 },
                   { plc_motor_temp := some 0, esp_current := some 0,
                     overall_health_score := some 0 }, {}, {}] } =
      (50, [Issue.insufficientData]) :=
  ⟨by norm_num, C2_predictive_neutral_default.1 _ (by norm_num)⟩

end MotorMonitor
